import Mathlib

/-
Verification of the example program `examples/hybrid/deuteron_h2_vqe.cpp`
(qcor hybrid VQE demonstration).

The file embeds the program shallowly:
  * quantum kernels become functions producing gate lists,
  * the Pauli-operator algebra used to build the Hamiltonian becomes a
    small term algebra over rational coefficients,
  * the external qcor_hybrid library (class VQE, createOptimizer,
    qcor_expect) is not part of the repository; its behaviour is modelled
    from the specification, with each such definition marked
    `Modelled from the spec:`,
  * `main` becomes a deterministic function of an environment that
    supplies the externally-computed optimization runs; `qcor_expect`
    aborting the process is modelled by truncating the event trace.

The static coefficients of the Hamiltonian expression are rationals.
Runtime `double` values (energies, parameters, angles) are represented
exactly as integers in units of 10⁻⁵, since every `double` literal of the
program is an integer multiple of 10⁻⁵; see the section on runtime
numeric values below.
-/

/-! ## Pauli-operator algebra (Hamiltonian expressions) -/

/-- Modelled from the spec: "Hamiltonian: a weighted sum of quantum-operator
terms whose expectation value is the energy being minimized."  A single Pauli
factor is X, Y or Z. -/
inductive Pauli
  | X
  | Y
  | Z
deriving DecidableEq

/-- One weighted term of a Hamiltonian: a rational coefficient times a product
of Pauli factors, each acting on a qubit index. -/
structure PauliTerm where
  coeff : ℚ
  ops : List (Pauli × ℕ)
deriving DecidableEq

/-- A Hamiltonian expression: a weighted sum of operator terms, kept as the
list of its terms. -/
abbrev Ham := List PauliTerm

instance : Add Ham := ⟨fun a b => a ++ b⟩

instance : Neg Ham := ⟨fun a => a.map fun t => ⟨-t.coeff, t.ops⟩⟩

instance : Sub Ham := ⟨fun a b => a + (-b)⟩

instance : Mul Ham :=
  ⟨fun a b =>
    (a.map fun ta => b.map fun tb =>
      (⟨ta.coeff * tb.coeff, ta.ops ++ tb.ops⟩ : PauliTerm)).flatten⟩

instance : HMul ℚ Ham Ham := ⟨fun c a => a.map fun t => ⟨c * t.coeff, t.ops⟩⟩

/-- A scalar used as a Hamiltonian expression: a single identity term. -/
def scalarHam (c : ℚ) : Ham := [⟨c, []⟩]

instance : HSub ℚ Ham Ham := ⟨fun c a => scalarHam c - a⟩

/-- The operator `X(i)` of the QCOR API. -/
def X (i : ℕ) : Ham := [⟨1, [(Pauli.X, i)]⟩]

/-- The operator `Y(i)` of the QCOR API. -/
def Y (i : ℕ) : Ham := [⟨1, [(Pauli.Y, i)]⟩]

/-- The operator `Z(i)` of the QCOR API. -/
def Z (i : ℕ) : Ham := [⟨1, [(Pauli.Z, i)]⟩]

/-- The Hamiltonian built in `main`:
`5.907 - 2.1433 * X(0) * X(1) - 2.1433 * Y(0) * Y(1) + .21829 * Z(0) - 6.125 * Z(1)`. -/
def H : Ham :=
  (5.907 : ℚ) - (2.1433 : ℚ) * X 0 * X 1 -
  (2.1433 : ℚ) * Y 0 * Y 1 + (0.21829 : ℚ) * Z 0 -
  (6.125 : ℚ) * Z 1

/-! ## Runtime numeric values

Every `double` literal of the program (5.907, 2.1433, 0.21829, 6.125,
1.74886, 0.1, 0.55, 0.0) is an integer multiple of 10⁻⁵.  A runtime value
(an energy, a variational parameter, an angle) is therefore represented
exactly by its integer numerator in units of 10⁻⁵; every comparison the
program performs is exact under this representation.  (The static rational
coefficients of the Hamiltonian expression stay in ℚ above.) -/

/-- A runtime `double` value of the program, in exact units of 10⁻⁵. -/
abbrev Fx := ℤ

/-! ## Quantum kernels as gate lists -/

/-- A gate of the circuits this file builds.  `ExpITheta` is the
`exp_i_theta` instruction: evolution under an operator expression by an
angle. -/
inductive Gate
  | X (t : ℕ)
  | Ry (t : ℕ) (theta : Fx)
  | CX (c t : ℕ)
  | ExpITheta (theta : Fx) (op : Ham)
deriving DecidableEq

/-- Kernel `ansatz(qreg q, double x)`: `X(q[0]); Ry(q[1], x); CX(q[1], q[0]);`.
The register is a map from register index to qubit id. -/
def ansatz (q : ℕ → ℕ) (x : Fx) : List Gate :=
  [Gate.X (q 0), Gate.Ry (q 1) x, Gate.CX (q 1) (q 0)]

/-- Kernel `ansatz_vec(qreg q, std::vector<double> x)`:
`X(q[0]);` then `exp_i_theta(q, x[0], X(0)*Y(1) - Y(0)*X(1))`.
Reading `x[0]` requires a non-empty vector, so the kernel is a partial
function of its parameter list. -/
def ansatz_vec (q : ℕ → ℕ) (x : List Fx) : Option (List Gate) :=
  let ansatz_exponent : Ham := X 0 * Y 1 - Y 0 * X 1
  match x.get? 0 with
  | none => none
  | some x0 => some [Gate.X (q 0), Gate.ExpITheta x0 ansatz_exponent]

/-- A statement of the mixed-dialect kernel, tagged with the language it is
written in (`using qcor::openqasm;` / `using qcor::xasm;`). -/
inductive MixedStmt
  | openqasmX (t : ℕ)
  | openqasmCX (c t : ℕ)
  | xasmRy (t : ℕ) (theta : Fx)
deriving DecidableEq

/-- Lowering of one dialect-tagged statement to the common gate set:
openqasm `x q[i];` is an X gate, openqasm `cx q[c], q[t];` is a CX gate,
xasm `Ry(q[t], theta)` is an Ry gate. -/
def lowerStmt : MixedStmt → Gate
  | MixedStmt.openqasmX t => Gate.X t
  | MixedStmt.openqasmCX c t => Gate.CX c t
  | MixedStmt.xasmRy t theta => Gate.Ry t theta

/-- Kernel `xasm_open_qasm_mixed_ansatz(qreg q, double xx)`:
openqasm `x q[0];`, then xasm `Ry(q[1], xx);`, then openqasm
`cx q[1], q[0];`. -/
def xasm_open_qasm_mixed_ansatz (q : ℕ → ℕ) (xx : Fx) : List MixedStmt :=
  [MixedStmt.openqasmX (q 0), MixedStmt.xasmRy (q 1) xx,
   MixedStmt.openqasmCX (q 1) (q 0)]

/-! ## The external library surface, modelled from the spec -/

/-- A configuration value of the optimizer factory: a string or an integer
(the program passes `"l-bfgs"` and `20`). -/
inductive OptValue
  | str (s : String)
  | int (n : ℤ)
deriving DecidableEq

/-- Modelled from the spec: "a factory for named optimizers with string/value
configuration options".  An optimizer is its name together with its option
list. -/
structure Optimizer where
  name : String
  options : List (String × OptValue)
deriving DecidableEq

/-- Modelled from the spec: `createOptimizer` builds the named optimizer
carrying the given configuration options. -/
def createOptimizer (n : String) (opts : List (String × OptValue)) : Optimizer :=
  ⟨n, opts⟩

/-- Which kernel a VQE instance was constructed with. -/
inductive KernelId
  | ansatzK
  | ansatzVecK
  | mixedK
deriving DecidableEq

/-- Modelled from the spec: "an object constructed from (kernel function,
Hamiltonian expression)", optionally with string/value configuration options
(the third instance passes `{{"gradient-strategy", "central"}}`). -/
structure VQE where
  kernel : KernelId
  hamiltonian : Ham
  options : List (String × String)
deriving DecidableEq

/-- The instance `VQE vqe(ansatz, H);` of `main`. -/
def vqe : VQE := ⟨KernelId.ansatzK, H, []⟩

/-- The instance `VQE vqe_vec(ansatz_vec, H);` of `main`. -/
def vqe_vec : VQE := ⟨KernelId.ansatzVecK, H, []⟩

/-- The instance `VQE vqe_openqasm(xasm_open_qasm_mixed_ansatz, H, {{"gradient-strategy", "central"}});`
of `main`. -/
def vqe_openqasm : VQE :=
  ⟨KernelId.mixedK, H, [("gradient-strategy", "central")]⟩

/-- The call `auto optimizer = createOptimizer("nlopt", {{"nlopt-optimizer", "l-bfgs"},
{"nlopt-maxeval", 20}});` of `main`. -/
def optimizer : Optimizer :=
  createOptimizer "nlopt"
    [("nlopt-optimizer", OptValue.str "l-bfgs"),
     ("nlopt-maxeval", OptValue.int 20)]

/-- Fold selecting the evaluation with the least energy from a list of
(parameters, energy) evaluations, given a current best. -/
def pickBest : List Fx × Fx → List (List Fx × Fx) → List Fx × Fx
  | b, [] => b
  | b, e :: es => pickBest (if e.2 < b.2 then e else b) es

/-- The (parameters, energy) evaluations of an objective over a list of
parameter sets. -/
def evalsOf (f : List Fx → Fx) (pts : List (List Fx)) : List (List Fx × Fx) :=
  pts.map fun p => (p, f p)

/-- Modelled from the spec: "a synchronous `execute(initial parameters)`
returning `(energy, parameters)`".  The optimization loop is abstracted by
its observable data: the backend objective `f` (energy of the ansatz at a
parameter set) and the parameter sets `proposals` the optimizer tried after
the initial one; `execute` returns the least energy seen and the parameters
achieving it. -/
def VQE.execute (_v : VQE) (f : List Fx → Fx) (proposals : List (List Fx))
    (init : List Fx) : Fx × List Fx :=
  let b := pickBest (init, f init) (evalsOf f proposals)
  (b.2, b.1)

/-- Modelled from the spec: the `execute` overload "accepting an explicit
optimizer configuration" as its first argument; it returns a pair of the
same shape. -/
def VQE.executeOpt (v : VQE) (_o : Optimizer) (f : List Fx → Fx)
    (proposals : List (List Fx)) (init : List Fx) : Fx × List Fx :=
  v.execute f proposals init

/-- Modelled from the spec: "accessor methods returning the set of unique
parameter vectors ... observed during optimization". -/
def VQE.get_unique_parameters (_v : VQE) (proposals : List (List Fx))
    (init : List Fx) : List (List Fx) :=
  (init :: proposals).dedup

/-- Modelled from the spec: the accessor returning the corresponding
(energy, parameter-vector) pairs observed during optimization. -/
def VQE.get_unique_energies (_v : VQE) (f : List Fx → Fx)
    (proposals : List (List Fx)) (init : List Fx) : List (Fx × List Fx) :=
  ((init :: proposals).map fun p => (f p, p)).dedup

/-! ## The embedding of `main` -/

/-- The data the external library contributes to one run of `main`: for each
of the three `execute` calls, the backend objective and the parameter sets
the optimizer proposed after the initial parameters. -/
structure Env where
  f1 : List Fx → Fx
  props1 : List (List Fx)
  f2 : List Fx → Fx
  props2 : List (List Fx)
  f3 : List Fx → Fx
  props3 : List (List Fx)

/-- The result of `const auto [energy, params] = vqe.execute(0.0);` — the scalar overload
starts the optimization at the one-element parameter vector `[0.0]`. -/
def r1 (env : Env) : Fx × List Fx := vqe.execute env.f1 env.props1 [0]

/-- The result of `const auto [energy_vec, params_vec] = vqe_vec.execute(std::vector<double>{0.0});` -/
def r2 (env : Env) : Fx × List Fx := vqe_vec.execute env.f2 env.props2 [0]

/-- The result of `const auto [energy_oq, params_oq] = vqe_openqasm.execute(optimizer, .55);`
(`.55` is `55000` in units of 10⁻⁵). -/
def r3 (env : Env) : Fx × List Fx :=
  vqe_openqasm.executeOpt optimizer env.f3 env.props3 [55000]

/-- The tolerance condition of the program's runtime checks:
`std::abs(e + 1.74886) < 0.1`, in units of 10⁻⁵
(`1.74886` is `174886`, `0.1` is `10000`). -/
def tolCheck (e : Fx) : Bool := decide (|e + 174886| < 10000)

/-- Condition of the first check, `qcor_expect(std::abs(energy + 1.74886) < 0.1)`. -/
def check1 (env : Env) : Bool := tolCheck (r1 env).1

/-- Condition of the second check, `qcor_expect(std::abs(energy_vec + 1.74886) < 0.1)`. -/
def check2 (env : Env) : Bool := tolCheck (r2 env).1

/-- Condition of the third check.  The source (line 79) tests `energy_vec`
again, not `energy_oq`: `qcor_expect(std::abs(energy_vec + 1.74886) < 0.1)`. -/
def check3 (env : Env) : Bool := tolCheck (r2 env).1

/-- One observable step of `main`.  `executeAsync` is the asynchronous
execution primitive of the library; `main` never emits it. -/
inductive Event
  | constructVQE (which : ℕ)
  | createOpt
  | executeSync (which : ℕ)
  | executeAsync (which : ℕ)
  | printResult (which : ℕ)
  | checkExpect (which : ℕ) (passed : Bool)
  | queryUniqueParameters
  | queryUniqueEnergies
  | printEnergiesLoop
deriving DecidableEq

/-- Events of `main` up to and including the first `qcor_expect`. -/
def tracePrefix1 (env : Env) : List Event :=
  [Event.constructVQE 1, Event.executeSync 1, Event.printResult 1,
   Event.checkExpect 1 (check1 env)]

/-- Events of `main` up to and including the second `qcor_expect`. -/
def tracePrefix2 (env : Env) : List Event :=
  tracePrefix1 env ++
  [Event.constructVQE 2, Event.executeSync 2, Event.printResult 2,
   Event.checkExpect 2 (check2 env)]

/-- Events of `main` up to and including the third `qcor_expect`. -/
def tracePrefix3 (env : Env) : List Event :=
  tracePrefix2 env ++
  [Event.createOpt, Event.constructVQE 3, Event.executeSync 3,
   Event.printResult 3, Event.checkExpect 3 (check3 env)]

/-- All events of a run of `main` in which every check passes. -/
def fullTrace (env : Env) : List Event :=
  tracePrefix3 env ++
  [Event.queryUniqueParameters, Event.queryUniqueEnergies,
   Event.printEnergiesLoop]

/-- The event trace of `main`.  Modelled from the spec: `qcor_expect` "aborts
the process if a physical value falls outside tolerance", so a failing check
truncates the trace at that check and no later statement contributes. -/
def mainTrace (env : Env) : List Event :=
  if check1 env = false then tracePrefix1 env
  else if check2 env = false then tracePrefix2 env
  else if check3 env = false then tracePrefix3 env
  else fullTrace env

/-- Whether the run of `main` was aborted by a failing `qcor_expect`. -/
def mainAborted (env : Env) : Bool :=
  !(check1 env && check2 env && check3 env)

/-- Recognizes `qcor_expect` check events. -/
def isCheckEvent : Event → Bool
  | Event.checkExpect _ _ => true
  | _ => false

/-- Recognizes synchronous execute events. -/
def isExecSyncEvent : Event → Bool
  | Event.executeSync _ => true
  | _ => false

/-- Recognizes asynchronous execute events. -/
def isExecAsyncEvent : Event → Bool
  | Event.executeAsync _ => true
  | _ => false

/-- An environment in which every backend evaluation returns the reference
energy −1.74886 (−174886 in units of 10⁻⁵): all three checks pass and
`main` terminates normally. -/
def goodEnv : Env :=
  ⟨fun _ => -174886, [], fun _ => -174886, [], fun _ => -174886, []⟩

/-- An environment in which the first two runs return the reference energy
−1.74886 but the third returns 0, far outside the tolerance. -/
def badEnv : Env :=
  ⟨fun _ => -174886, [], fun _ => -174886, [], fun _ => 0, []⟩

/-! ## Helper lemmas -/

theorem ham_add_def (a b : Ham) : a + b = a ++ b := rfl

theorem ham_neg_def (a : Ham) : -a = a.map fun t => ⟨-t.coeff, t.ops⟩ := rfl

theorem ham_sub_def (a b : Ham) : a - b = a + (-b) := rfl

theorem ham_mul_def (a b : Ham) :
    a * b = (a.map fun ta => b.map fun tb =>
      (⟨ta.coeff * tb.coeff, ta.ops ++ tb.ops⟩ : PauliTerm)).flatten := rfl

theorem ham_smul_def (c : ℚ) (a : Ham) :
    c * a = a.map fun t => ⟨c * t.coeff, t.ops⟩ := rfl

theorem ham_scalar_sub_def (c : ℚ) (a : Ham) : c - a = scalarHam c - a := rfl

theorem pickBest_mem (es : List (List Fx × Fx)) (b : List Fx × Fx) :
    pickBest b es = b ∨ pickBest b es ∈ es := by
  induction es generalizing b with
  | nil => exact Or.inl rfl
  | cons e es ih =>
    simp only [pickBest]
    rcases ih (if e.2 < b.2 then e else b) with h | h
    · by_cases hc : e.2 < b.2
      · right
        rw [h, if_pos hc]
        exact List.mem_cons_self e es
      · left
        rw [h, if_neg hc]
    · right
      exact List.mem_cons_of_mem e h

theorem pickBest_le (es : List (List Fx × Fx)) (b : List Fx × Fx) :
    (pickBest b es).2 ≤ b.2 ∧ ∀ e ∈ es, (pickBest b es).2 ≤ e.2 := by
  induction es generalizing b with
  | nil => exact ⟨le_refl _, by simp⟩
  | cons e es ih =>
    obtain ⟨h1, h2⟩ := ih (if e.2 < b.2 then e else b)
    have hb : (if e.2 < b.2 then e else b).2 ≤ b.2 := by
      by_cases hc : e.2 < b.2
      · rw [if_pos hc]; exact le_of_lt hc
      · rw [if_neg hc]
    have he : (if e.2 < b.2 then e else b).2 ≤ e.2 := by
      by_cases hc : e.2 < b.2
      · rw [if_pos hc]
      · rw [if_neg hc]; exact le_of_not_lt hc
    refine ⟨le_trans h1 hb, ?_⟩
    intro x hx
    rcases List.mem_cons.mp hx with rfl | hx
    · exact le_trans h1 he
    · exact h2 x hx

theorem evalsOf_mem (f : List Fx → Fx) (pts : List (List Fx))
    (e : List Fx × Fx) (h : e ∈ evalsOf f pts) : e.2 = f e.1 ∧ e.1 ∈ pts := by
  obtain ⟨p, hp, rfl⟩ := List.mem_map.mp h
  exact ⟨rfl, hp⟩

theorem execute_spec (v : VQE) (f : List Fx → Fx) (proposals : List (List Fx))
    (init : List Fx) :
    (v.execute f proposals init).1 = f (v.execute f proposals init).2 ∧
    (v.execute f proposals init).2 ∈ init :: proposals ∧
    ∀ p ∈ init :: proposals, (v.execute f proposals init).1 ≤ f p := by
  show (pickBest (init, f init) (evalsOf f proposals)).2 = _ ∧ _ ∧ _
  set b := pickBest (init, f init) (evalsOf f proposals) with hb
  have hmem : b.2 = f b.1 ∧ b.1 ∈ init :: proposals := by
    rcases pickBest_mem (evalsOf f proposals) (init, f init) with h | h
    · rw [hb, h]
      exact ⟨rfl, List.mem_cons_self _ _⟩
    · obtain ⟨h1, h2⟩ := evalsOf_mem f proposals b (hb ▸ h)
      exact ⟨h1, List.mem_cons_of_mem _ h2⟩
  obtain ⟨hle_init, hle⟩ := pickBest_le (evalsOf f proposals) (init, f init)
  refine ⟨hmem.1, hmem.2, ?_⟩
  intro p hp
  rcases List.mem_cons.mp hp with rfl | hp
  · exact hle_init
  · exact hle (p, f p) (List.mem_map_of_mem _ hp)

theorem get?_zero_isSome (l : List Fx) (h : l ≠ []) : (l.get? 0).isSome = true := by
  cases l with
  | nil => exact absurd rfl h
  | cons a l => rfl

/-! ## Claims -/

/-- C1: the program intends every one of the three returned energies to
satisfy `|energy + 1.74886| < 0.1`, but the third runtime check (line 79)
re-tests `energy_vec` instead of `energy_oq`.  Concretely: in the
environment `badEnv`, whose third run returns energy 0, `main` terminates
normally (no check aborts, the full trace is produced) although the third
returned energy fails the tolerance. -/
theorem energy_oq_unconstrained_run :
    mainAborted badEnv = false ∧
    mainTrace badEnv = fullTrace badEnv ∧
    (r3 badEnv).1 = 0 ∧
    tolCheck (r3 badEnv).1 = false := by decide

/-- C2: a failing `qcor_expect` truncates the run at that check — the trace
is exactly the prefix up to the failing check — a passing one leaves it
unaffected, and all checks passing yields the full trace; consequently the
second `execute` call occurs only if the first check passed and the third
only if the first two passed. -/
theorem qcor_expect_aborts_and_gates_later_calls (env : Env) :
    (check1 env = false → mainTrace env = tracePrefix1 env) ∧
    (check1 env = true → check2 env = false → mainTrace env = tracePrefix2 env) ∧
    (check1 env = true → check2 env = true → check3 env = false →
      mainTrace env = tracePrefix3 env) ∧
    (check1 env = true → check2 env = true → check3 env = true →
      mainTrace env = fullTrace env) ∧
    (Event.executeSync 2 ∈ mainTrace env → check1 env = true) ∧
    (Event.executeSync 3 ∈ mainTrace env → check1 env = true ∧ check2 env = true) := by
  cases h1 : check1 env <;> cases h2 : check2 env <;> cases h3 : check3 env <;>
    simp [mainTrace, h1, h2, h3, tracePrefix1, tracePrefix2, tracePrefix3, fullTrace]

/-- Witness for C2 at the concrete environment `goodEnv`. -/
theorem qcor_expect_gating_witness : mainTrace goodEnv = fullTrace goodEnv :=
  (qcor_expect_aborts_and_gates_later_calls goodEnv).2.2.2.1
    (by decide) (by decide) (by decide)

/-- C3 counterexample: in the concrete environment `goodEnv` the run of
`main` terminates normally and the number of `qcor_expect` checks evaluated
is not one (it is three). -/
theorem three_not_one_checks_evaluated :
    mainAborted goodEnv = false ∧
    ¬ ((mainTrace goodEnv).countP isCheckEvent = 1) := by decide

/-- C3 amended: during any normally terminating run exactly three
`qcor_expect` tolerance checks are evaluated. -/
theorem normal_run_evaluates_three_checks (env : Env)
    (h : mainAborted env = false) :
    (mainTrace env).countP isCheckEvent = 3 := by
  simp only [mainAborted, Bool.not_eq_false', Bool.and_eq_true] at h
  obtain ⟨⟨h1, h2⟩, h3⟩ := h
  simp [mainTrace, h1, h2, h3, fullTrace, tracePrefix3, tracePrefix2,
    tracePrefix1, isCheckEvent]

/-- Witness for the amended C3 at the concrete environment `goodEnv`. -/
theorem normal_run_evaluates_three_checks_witness :
    (mainTrace goodEnv).countP isCheckEvent = 3 :=
  normal_run_evaluates_three_checks goodEnv (by decide)

/-- C4: `execute` returns a pair whose first component is the energy
computed for the parameters returned as the second component (which is one
of the evaluated parameter sets, the one of least energy), and the overload
taking an explicit optimizer as its first argument returns the same pair. -/
theorem execute_returns_energy_and_optimal_params (v : VQE) (o : Optimizer)
    (f : List Fx → Fx) (proposals : List (List Fx)) (init : List Fx) :
    (v.execute f proposals init).1 = f (v.execute f proposals init).2 ∧
    (v.execute f proposals init).2 ∈ init :: proposals ∧
    (∀ p ∈ init :: proposals, (v.execute f proposals init).1 ≤ f p) ∧
    v.executeOpt o f proposals init = v.execute f proposals init := by
  obtain ⟨h1, h2, h3⟩ := execute_spec v f proposals init
  exact ⟨h1, h2, h3, rfl⟩

/-- Witness for C4: a concrete execution in which the minimality conclusion
is instantiated at an evaluated parameter set. -/
theorem execute_returns_witness :
    (vqe.execute (fun _ => 0) [[100]] [0]).1 ≤ (fun _ => (0 : Fx)) [100] :=
  (execute_returns_energy_and_optimal_params vqe optimizer
    (fun _ => 0) [[100]] [0]).2.2.1 [100] (by decide)

/-- C5: after a run, `get_unique_parameters` is the deduplicated list of
the parameter sets evaluated during the optimization, and every
(energy, parameters) pair of `get_unique_energies` has its parameter vector
among `get_unique_parameters`, with the energy the objective value at those
parameters. -/
theorem unique_energies_subset_unique_parameters (v : VQE)
    (f : List Fx → Fx) (proposals : List (List Fx)) (init : List Fx) :
    (v.get_unique_parameters proposals init).Nodup ∧
    (∀ p, p ∈ v.get_unique_parameters proposals init ↔ p ∈ init :: proposals) ∧
    (∀ e p, (e, p) ∈ v.get_unique_energies f proposals init →
      p ∈ v.get_unique_parameters proposals init ∧ e = f p) := by
  refine ⟨List.nodup_dedup _, fun p => List.mem_dedup, ?_⟩
  intro e p h
  rw [VQE.get_unique_energies, List.mem_dedup] at h
  obtain ⟨q, hq, heq⟩ := List.mem_map.mp h
  cases heq
  exact ⟨List.mem_dedup.mpr hq, rfl⟩

/-- Witness for C5: a concrete (energy, parameters) pair of
`get_unique_energies` whose parameter vector is among
`get_unique_parameters`. -/
theorem unique_energies_witness :
    [100] ∈ vqe.get_unique_parameters [[100]] [0] ∧
    (5 : Fx) = (fun _ => (5 : Fx)) [100] :=
  (unique_energies_subset_unique_parameters vqe (fun _ => 5) [[100]] [0]).2.2
    5 [100] (by decide)

/-- C6 counterexample: in `main`, the optimizer factory call configures only
`nlopt-optimizer` and `nlopt-maxeval`; `gradient-strategy` is not among the
options configured through `createOptimizer` — it is passed to the `VQE`
constructor instead. -/
theorem gradient_strategy_not_factory_option :
    optimizer.options.map Prod.fst = ["nlopt-optimizer", "nlopt-maxeval"] ∧
    ¬ ("gradient-strategy" ∈ optimizer.options.map Prod.fst) ∧
    ("gradient-strategy", "central") ∈ vqe_openqasm.options := by decide

/-- C6 amended: `createOptimizer` constructs a named optimizer carrying
exactly the given name and string/value option pairs (in `main`: "nlopt"
with `nlopt-optimizer = "l-bfgs"` and `nlopt-maxeval = 20`), and the
gradient-estimation strategy is configured through the `VQE` constructor
options (`{"gradient-strategy", "central"}`), not through the factory. -/
theorem createOptimizer_stores_name_options (n : String)
    (opts : List (String × OptValue)) :
    (createOptimizer n opts).name = n ∧
    (createOptimizer n opts).options = opts ∧
    optimizer = createOptimizer "nlopt"
      [("nlopt-optimizer", OptValue.str "l-bfgs"),
       ("nlopt-maxeval", OptValue.int 20)] ∧
    ("gradient-strategy", "central") ∈ vqe_openqasm.options :=
  ⟨rfl, rfl, rfl, by decide⟩

/-- C7: the Hamiltonian of `main` is the weighted sum
`5.907·I − 2.1433·X₀X₁ − 2.1433·Y₀Y₁ + 0.21829·Z₀ − 6.125·Z₁`, every
operator factor acts on qubit 0 or qubit 1, and the same `H` is the
Hamiltonian of all three constructed VQE instances. -/
theorem hamiltonian_two_qubit_weighted_sum :
    H = [⟨5.907, []⟩,
      ⟨-2.1433, [(Pauli.X, 0), (Pauli.X, 1)]⟩,
      ⟨-2.1433, [(Pauli.Y, 0), (Pauli.Y, 1)]⟩,
      ⟨0.21829, [(Pauli.Z, 0)]⟩,
      ⟨-6.125, [(Pauli.Z, 1)]⟩] ∧
    (H.all fun t => t.ops.all fun o => o.2 == 0 || o.2 == 1) = true ∧
    vqe.hamiltonian = H ∧ vqe_vec.hamiltonian = H ∧
    vqe_openqasm.hamiltonian = H := by
  refine ⟨?_, by decide, rfl, rfl, rfl⟩
  simp [H, X, Y, Z, scalarHam, ham_scalar_sub_def, ham_sub_def, ham_add_def,
    ham_neg_def, ham_mul_def, ham_smul_def]

/-- C8: no run of `main` ever emits an asynchronous execution event, and a
normally terminating run performs exactly three synchronous `execute`
calls. -/
theorem all_executions_synchronous (env : Env) :
    (mainTrace env).countP isExecAsyncEvent = 0 ∧
    (mainAborted env = false →
      (mainTrace env).countP isExecSyncEvent = 3) := by
  cases h1 : check1 env <;> cases h2 : check2 env <;> cases h3 : check3 env <;>
    simp [mainTrace, mainAborted, h1, h2, h3, tracePrefix1, tracePrefix2,
      tracePrefix3, fullTrace, isExecAsyncEvent, isExecSyncEvent]

/-- Witness for C8 at the concrete environment `goodEnv`. -/
theorem all_executions_synchronous_witness :
    (mainTrace goodEnv).countP isExecSyncEvent = 3 :=
  (all_executions_synchronous goodEnv).2 (by decide)

/-- C9: `ansatz_vec` reads `x[0]` and is defined exactly on non-empty
parameter vectors — in particular on its call-site vector `{0.0}` — and the
accesses `params[0]`, `params_vec[0]`, `params_oq[0]` of `main` are in
bounds whenever the corresponding `execute` call returns a non-empty
parameter vector. -/
theorem vector_indices_in_bounds :
    (∀ (q : ℕ → ℕ) (x : List Fx), x ≠ [] → (ansatz_vec q x).isSome = true) ∧
    (∀ q : ℕ → ℕ, (ansatz_vec q [0]).isSome = true) ∧
    (∀ env : Env, (r1 env).2 ≠ [] → ((r1 env).2.get? 0).isSome = true) ∧
    (∀ env : Env, (r2 env).2 ≠ [] → ((r2 env).2.get? 0).isSome = true) ∧
    (∀ env : Env, (r3 env).2 ≠ [] → ((r3 env).2.get? 0).isSome = true) := by
  refine ⟨?_, fun q => rfl, fun env h => get?_zero_isSome _ h,
    fun env h => get?_zero_isSome _ h, fun env h => get?_zero_isSome _ h⟩
  intro q x h
  cases x with
  | nil => exact absurd rfl h
  | cons a l => rfl

/-- Witness for C9: in the concrete environment `goodEnv` the first
returned parameter vector is non-empty and its first element is read in
bounds. -/
theorem vector_indices_in_bounds_witness :
    ((r1 goodEnv).2.get? 0).isSome = true :=
  vector_indices_in_bounds.2.2.1 goodEnv (by decide)

/-- C10: lowering the mixed openqasm/xasm kernel statement-by-statement
yields exactly the gate sequence of the pure xasm kernel `ansatz`: X on
`q[0]`, Ry on `q[1]` by the angle, CX with control `q[1]` and target
`q[0]`. -/
theorem mixed_kernel_equals_xasm_kernel (q : ℕ → ℕ) (xx : Fx) :
    (xasm_open_qasm_mixed_ansatz q xx).map lowerStmt = ansatz q xx ∧
    ansatz q xx = [Gate.X (q 0), Gate.Ry (q 1) xx, Gate.CX (q 1) (q 0)] :=
  ⟨rfl, rfl⟩
